import Mathlib

/-!
Verification of the weather-aware property search pipeline of the
`dhaval079/weather-api` repository.

The operative request path of the backend is
`GET /get-properties` (use-cases/getProperties.ts) which calls
`RedisPropertyService.searchProperties` (services/redis-property.service.ts),
which in turn uses `WeatherService` (services/weather.service.ts).

The embedding below is a shallow, purely functional translation of that
path.  JavaScript numbers that can be `NaN` (the values produced by
`parseFloat` / `parseInt` on query parameters) are modelled by `JsNum`;
ordinary numeric record fields are modelled by `Rat`.  External effects
are modelled as explicit function parameters:

* `wcache : Rat × Rat → Option WeatherInfo` - the per coordinate Redis
  weather cache (keyed by the 4 decimal digit rounded pair, as the code
  keys `weather:lat.toFixed(4),lng.toFixed(4)`),
* `pv : Rat × Rat → ApiResult` - the external Open-Meteo provider; an
  `ApiResult` is either a network level failure (timeout / non-2xx),
  or a response body with or without a `current` field.

Wall clock fields (`lastUpdated`, `searchTime`) and logging are omitted:
no claim mentions them.  Writes performed by the request (caching of a
freshly fetched weather record) are side effects invisible in the values
the claims talk about and are dropped from the value level model.
-/

/-- A JavaScript number as produced by `parseFloat`/`parseInt`:
either `NaN` or a (here: rational) numeric value. -/
inductive JsNum where
  | nan : JsNum
  | num (v : ℚ) : JsNum
deriving DecidableEq

/-- JavaScript truthiness of a number: `NaN` and `0` are falsy. -/
def JsNum.truthy : JsNum → Bool
  | .nan => false
  | .num v => v != 0

/-- JavaScript `x < c` where `x` may be `NaN` (any comparison with `NaN`
is false). -/
def JsNum.ltc : JsNum → ℚ → Bool
  | .nan, _ => false
  | .num v, c => v < c

/-- JavaScript `x > c` where `x` may be `NaN`. -/
def JsNum.gtc : JsNum → ℚ → Bool
  | .nan, _ => false
  | .num v, c => v > c

/-- JavaScript `q < x` for an ordinary number `q` against a possibly-`NaN`
bound `x` (used by the weather predicate `temperature < filters.tempMin`). -/
def ltNum (q : ℚ) : JsNum → Bool
  | .nan => false
  | .num v => q < v

/-- JavaScript `q > x` for an ordinary number `q` against a possibly-`NaN`
bound `x`. -/
def gtNum (q : ℚ) : JsNum → Bool
  | .nan => false
  | .num v => q > v

/-- JavaScript `x || d` on a number: falls back to `d` when `x` is
`NaN` or `0`. -/
def JsNum.orD : JsNum → ℚ → ℚ
  | .nan, d => d
  | .num v, d => if v = 0 then d else v

/-- JavaScript `x || d` where `x` may additionally be `undefined`
(an absent record field such as `filters.limit`). -/
def jsOrD : Option JsNum → ℚ → ℚ
  | none, d => d
  | some x, d => x.orD d

/-- Truncation toward zero (`ToIntegerOrInfinity` of a finite number). -/
def ratTrunc (q : ℚ) : ℤ :=
  if 0 ≤ q then ⌊q⌋ else ⌈q⌉

/-- `Math.round`: round half toward positive infinity. -/
def jsRound (q : ℚ) : ℤ :=
  ⌊q + 1/2⌋

/-- `toFixed(4)` used for the weather cache key: rounding to 4 decimal
digits. -/
def toFixed4 (q : ℚ) : ℚ :=
  (jsRound (q * 10000) : ℚ) / 10000

/-- Numeric value of a list of decimal digit characters. -/
def digitsToNat (l : List Char) : ℕ :=
  l.foldl (fun a c => a * 10 + (c.toNat - 48)) 0

/-- The syntactic stage of JavaScript `parseFloat` over an optional
sign, integer digits and an optional fraction (the forms that occur in
query strings; exponents and leading whitespace, which no claim
exercises, are not modelled): the sign flag, the integer digits, the
fraction digits and the fraction length, or `none` when no digit is
found - in particular for any string starting with a letter. -/
def parseFloatParts (s : String) : Option (Bool × ℕ × ℕ × ℕ) :=
  let l := s.toList
  let sign : Bool × List Char :=
    match l with
    | '-' :: r => (true, r)
    | '+' :: r => (false, r)
    | _ => (false, l)
  let ip := sign.2.takeWhile Char.isDigit
  let rest := sign.2.dropWhile Char.isDigit
  let fp :=
    match rest with
    | '.' :: r => r.takeWhile Char.isDigit
    | _ => []
  if ip = [] && fp = [] then none
  else some (sign.1, digitsToNat ip, digitsToNat fp, fp.length)

/-- Model of JavaScript `parseFloat`: the numeric value of the parsed
parts, or `NaN` when no numeric head exists. -/
def jsParseFloat (s : String) : JsNum :=
  match parseFloatParts s with
  | none => JsNum.nan
  | some (neg, ip, fp, fl) =>
    JsNum.num ((if neg then -1 else 1) * ((ip : ℚ) + (fp : ℚ) / 10 ^ fl))

/-- The syntactic stage of JavaScript `parseInt` (decimal): optional
sign followed by digits; `none` when no digit follows. -/
def parseIntParts (s : String) : Option (Bool × ℕ) :=
  let l := s.toList
  let sign : Bool × List Char :=
    match l with
    | '-' :: r => (true, r)
    | '+' :: r => (false, r)
    | _ => (false, l)
  let ip := sign.2.takeWhile Char.isDigit
  if ip = [] then none
  else some (sign.1, digitsToNat ip)

/-- Model of JavaScript `parseInt` (decimal): the integer value of the
parsed parts, or `NaN`. -/
def jsParseInt (s : String) : JsNum :=
  match parseIntParts s with
  | none => JsNum.nan
  | some (neg, ip) => JsNum.num ((if neg then -1 else 1) * (ip : ℚ))

/-- Boolean test: is `needle` a head of `hay`? -/
def isPrefB : List Char → List Char → Bool
  | [], _ => true
  | _ :: _, [] => false
  | a :: as, b :: bs => a = b && isPrefB as bs

/-- Boolean test mirroring JavaScript `hay.includes(needle)`. -/
def inclB : List Char → List Char → Bool
  | hay, needle =>
    isPrefB needle hay ||
      match hay with
      | [] => false
      | _ :: t => inclB t needle

/-- Case-insensitive substring test,
`hay.toLowerCase().includes(needle.toLowerCase())`. -/
def strIncludesCI (hay needle : String) : Bool :=
  inclB hay.toLower.toList needle.toLower.toList

/-! ## WeatherService (services/weather.service.ts) -/

/-- The `current` object of an Open-Meteo response, after the numeric
coercions the code applies (`parseFloat(...)` on the two measurement
fields; `weather_code` is used raw, with a missing field collapsing to
`NaN` for the subsequent `|| 0`). -/
structure ApiCurrent where
  temperature_2m : JsNum
  relative_humidity_2m : JsNum
  weather_code : JsNum
deriving DecidableEq

/-- Outcome of one outbound weather request: a network level failure
(timeout, non-2xx), or a body with or without a `current` field. -/
inductive ApiResult where
  | netFail : ApiResult
  | resp (current : Option ApiCurrent) : ApiResult
deriving DecidableEq

/-- `WeatherData` of weather.service.ts (`lastUpdated` omitted). -/
structure WeatherData where
  latitude : ℚ
  longitude : ℚ
  temperature : ℚ
  humidity : ℚ
  weatherCode : ℚ
  condition : String
deriving DecidableEq

/-- A coordinate tagged with its owning property id, the element type of
the input of `getWeatherBatch`. -/
structure Coord where
  id : ℤ
  lat : ℚ
  lng : ℚ
deriving DecidableEq

/-- `WeatherService.mapWeatherCode`. -/
def mapWeatherCode (code : ℚ) : String :=
  if code = 0 then "Clear"
  else if 1 ≤ code ∧ code ≤ 3 then "Cloudy"
  else if 51 ≤ code ∧ code ≤ 57 then "Drizzle"
  else if (61 ≤ code ∧ code ≤ 67) ∨ (80 ≤ code ∧ code ≤ 82) then "Rainy"
  else if (71 ≤ code ∧ code ≤ 77) ∨ (85 ≤ code ∧ code ≤ 86) then "Snow"
  else "Clear"

/-- `WeatherService.createDefaultWeather`. -/
def createDefaultWeather (lat lng : ℚ) : WeatherData :=
  { latitude := lat
    longitude := lng
    temperature := 25
    humidity := 60
    weatherCode := 0
    condition := "Clear" }

/-- `WeatherService.fetchFreshWeather`: performs the outbound call
(`pv`); a network failure or a body without `current` raises
(`Except.error`), otherwise the parsed `WeatherData` is returned.
`Math.round(parseFloat(x) || d)` becomes `jsRound (JsNum.orD x d)`. -/
def fetchFreshWeather (pv : ℚ × ℚ → ApiResult) (lat lng : ℚ) : Except Unit WeatherData :=
  match pv (lat, lng) with
  | .netFail => .error ()
  | .resp none => .error ()
  | .resp (some current) =>
    .ok { latitude := lat
          longitude := lng
          temperature := (jsRound (current.temperature_2m.orD 25) : ℚ)
          humidity := (jsRound (current.relative_humidity_2m.orD 60) : ℚ)
          weatherCode := current.weather_code.orD 0
          condition := mapWeatherCode (current.weather_code.orD 0) }

/-- `WeatherService.getWeatherBatch`: one sequential try/catch per
coordinate; a failed fetch contributes the default record and the loop
continues (the inter-request 150 ms pacing delay does not affect the
produced values). -/
def getWeatherBatch (pv : ℚ × ℚ → ApiResult) (coordinates : List Coord) : List WeatherData :=
  coordinates.map fun coord =>
    match fetchFreshWeather pv coord.lat coord.lng with
    | .ok weather => weather
    | .error _ => createDefaultWeather coord.lat coord.lng

/-! ## RedisPropertyService (services/redis-property.service.ts) -/

/-- A property record as stored in the `properties:all` Redis snapshot
(the image of `syncPropertiesToRedis`: active rows only, `lat`/`lng`
defaulted to `0` when the database column is null). -/
structure CachedProperty where
  id : ℤ
  name : String
  city : String
  state : String
  country : String
  lat : ℚ
  lng : ℚ
  isActive : Bool
  tags : List String
deriving DecidableEq

/-- The `weather` object attached to a search hit (`lastUpdated`
omitted). -/
structure WeatherInfo where
  temperature : ℚ
  humidity : ℚ
  condition : String
deriving DecidableEq

/-- `PropertyWithWeather`: a snapshot record plus an optional attached
weather object. -/
structure PropertyWithWeather where
  base : CachedProperty
  weather : Option WeatherInfo
deriving DecidableEq

/-- A snapshot record viewed as a `PropertyWithWeather` with no weather
attached yet. -/
def toPW (p : CachedProperty) : PropertyWithWeather :=
  { base := p, weather := none }

/-- The default weather object attached when a property has no usable
coordinates or when the fetch fails. -/
def defaultWeatherInfo : WeatherInfo :=
  { temperature := 25, humidity := 60, condition := "Clear" }

/-- `WeatherFilters` plus the structural and paging fields:
`EnhancedSearchFilters` of redis-property.service.ts.  Numeric fields
hold possibly-`NaN` JavaScript numbers; `none` is `undefined`. -/
structure EnhancedSearchFilters where
  searchText : Option String := none
  city : Option String := none
  state : Option String := none
  tempMin : Option JsNum := none
  tempMax : Option JsNum := none
  humidityMin : Option JsNum := none
  humidityMax : Option JsNum := none
  weatherCondition : Option String := none
  limit : Option JsNum := none
  offset : Option JsNum := none
deriving DecidableEq

/-- The body of `attachWeatherData` for one property: default weather if
either coordinate is falsy (`!prop.lat || !prop.lng`), else the Redis
weather cache keyed by the `toFixed(4)` pair, else a fresh singleton
`getWeatherBatch` (whose failure already degrades to the default); the
`freshWeather.length > 0` check is the match on the result list. -/
def attachOne (wcache : ℚ × ℚ → Option WeatherInfo) (pv : ℚ × ℚ → ApiResult)
    (pw : PropertyWithWeather) : PropertyWithWeather :=
  let p := pw.base
  if p.lat = 0 ∨ p.lng = 0 then
    { base := p, weather := some defaultWeatherInfo }
  else
    match wcache (toFixed4 p.lat, toFixed4 p.lng) with
    | some cached => { base := p, weather := some cached }
    | none =>
      match getWeatherBatch pv [{ id := p.id, lat := p.lat, lng := p.lng }] with
      | weather :: _ =>
        { base := p
          weather := some { temperature := weather.temperature
                            humidity := weather.humidity
                            condition := weather.condition } }
      | [] => { base := p, weather := some defaultWeatherInfo }

/-- The awaiting loop at the end of `attachWeatherData`: the already
created promises are awaited in groups of `batchSize` (10) and their
results concatenated in order. -/
def batchJoin (batchSize : ℕ) (hpos : 0 < batchSize) : List α → List α
  | [] => []
  | x :: xs =>
    ((x :: xs).take batchSize) ++ batchJoin batchSize hpos ((x :: xs).drop batchSize)
termination_by l => l.length
decreasing_by
  simp only [List.length_drop, List.length_cons]
  omega

/-- `RedisPropertyService.attachWeatherData`. -/
def attachWeatherData (wcache : ℚ × ℚ → Option WeatherInfo) (pv : ℚ × ℚ → ApiResult)
    (properties : List PropertyWithWeather) : List PropertyWithWeather :=
  batchJoin 10 (by norm_num) (properties.map (attachOne wcache pv))

/-- Truthiness of an optional numeric filter field
(`filters.tempMin` in a boolean position: `undefined`, `NaN` and `0`
are falsy). -/
def optNumTruthy : Option JsNum → Bool
  | none => false
  | some x => x.truthy

/-- Truthiness of an optional string filter field (`undefined` and the
empty string are falsy). -/
def optStrTruthy : Option String → Bool
  | none => false
  | some s => s != ""

/-- The early-return guard of `applyWeatherFilters`: true when every
weather filter field is falsy (note: falsy, not merely `undefined`). -/
def weatherFiltersAllFalsy (filters : EnhancedSearchFilters) : Bool :=
  !optNumTruthy filters.tempMin && !optNumTruthy filters.tempMax &&
    !optNumTruthy filters.humidityMin && !optNumTruthy filters.humidityMax &&
    !optStrTruthy filters.weatherCondition

/-- One `filters.x !== undefined && value < filters.x` style check of
`applyWeatherFilters`: produces true when the record must be dropped. -/
def numCheckFails (field : Option JsNum) (cmp : JsNum → Bool) : Bool :=
  match field with
  | none => false
  | some bound => cmp bound

/-- The per-record keep decision inside the `.filter` callback of
`applyWeatherFilters` (a record without a `weather` object is dropped). -/
def weatherKeep (filters : EnhancedSearchFilters) (pw : PropertyWithWeather) : Bool :=
  match pw.weather with
  | none => false
  | some w =>
    !numCheckFails filters.tempMin (ltNum w.temperature) &&
      !numCheckFails filters.tempMax (gtNum w.temperature) &&
      !numCheckFails filters.humidityMin (ltNum w.humidity) &&
      !numCheckFails filters.humidityMax (gtNum w.humidity) &&
      !(optStrTruthy filters.weatherCondition &&
          w.condition != filters.weatherCondition.getD "")

/-- `RedisPropertyService.applyWeatherFilters`. -/
def applyWeatherFilters (properties : List PropertyWithWeather)
    (filters : EnhancedSearchFilters) : List PropertyWithWeather :=
  if weatherFiltersAllFalsy filters then properties
  else properties.filter (weatherKeep filters)

/-- The structural filter predicate of `searchProperties` (name, city
and state case-insensitive substring matches, each skipped when the
corresponding filter field is falsy). -/
def structPass (filters : EnhancedSearchFilters) (p : CachedProperty) : Bool :=
  (match filters.searchText with
   | none => true
   | some s => s = "" || strIncludesCI p.name s) &&
    (match filters.city with
     | none => true
     | some s => s = "" || strIncludesCI p.city s) &&
    (match filters.state with
     | none => true
     | some s => s = "" || strIncludesCI p.state s)

/-- `hasWeatherFilters` of `searchProperties`: any of the five weather
filter fields is not `undefined` (`NaN`, `0` and `""` all count as
present here, unlike in `applyWeatherFilters`). -/
def hasWeatherFilters (filters : EnhancedSearchFilters) : Bool :=
  filters.tempMin != none || filters.tempMax != none ||
    filters.humidityMin != none || filters.humidityMax != none ||
    filters.weatherCondition != none

/-- Resolution of a JavaScript `slice` index relative to a list of
length `n`: negative indices count from the end, and the result is
clamped to `[0, n]`. -/
def relIdx (n : ℕ) (q : ℚ) : ℕ :=
  let t := ratTrunc q
  if t < 0 then ((n : ℤ) + t).toNat else min t.toNat n

/-- JavaScript `Array.prototype.slice(start, end)` on a list, with
possibly negative rational arguments. -/
def jsSlice (l : List α) (s e : ℚ) : List α :=
  (l.take (relIdx l.length e)).drop (relIdx l.length s)

/-- The coordinates of the return value of `searchProperties`
(`searchTime` and `source` omitted). -/
structure SearchResult where
  properties : List PropertyWithWeather
  total : ℕ
  hasMore : Bool
deriving DecidableEq

/-- The structurally filtered snapshot (`filteredProperties` in
`searchProperties`). -/
def structuralFiltered (filters : EnhancedSearchFilters)
    (properties : List CachedProperty) : List CachedProperty :=
  properties.filter (structPass filters)

/-- `weatherFilteredProperties` of `searchProperties`: when a weather
filter field is present the whole structurally filtered set is enriched
and passed through `applyWeatherFilters`, otherwise the structurally
filtered set is used as is. -/
def weatherFilteredList (filters : EnhancedSearchFilters)
    (properties : List CachedProperty)
    (wcache : ℚ × ℚ → Option WeatherInfo) (pv : ℚ × ℚ → ApiResult) :
    List PropertyWithWeather :=
  if hasWeatherFilters filters then
    applyWeatherFilters
      (attachWeatherData wcache pv ((structuralFiltered filters properties).map toPW))
      filters
  else
    (structuralFiltered filters properties).map toPW

/-- `RedisPropertyService.searchProperties`, applied to the snapshot
list obtained from the `properties:all` cache (or from the database
resync when that cache was empty).  Pagination slices the weather
filtered list with the defaulted `limit`/`offset`; when no weather
filter is present only the page is enriched; `total` is the length of
the weather filtered list and `hasMore` is `offset + limit < total`. -/
def searchProperties (filters : EnhancedSearchFilters)
    (properties : List CachedProperty)
    (wcache : ℚ × ℚ → Option WeatherInfo) (pv : ℚ × ℚ → ApiResult) :
    SearchResult :=
  let weatherFiltered := weatherFilteredList filters properties wcache pv
  let limit := jsOrD filters.limit 20
  let offset := jsOrD filters.offset 0
  let paginated := jsSlice weatherFiltered offset (offset + limit)
  let finalProperties :=
    if hasWeatherFilters filters then paginated
    else attachWeatherData wcache pv paginated
  { properties := finalProperties
    total := weatherFiltered.length
    hasMore := decide (offset + limit < (weatherFiltered.length : ℚ)) }

/-! ## getProperties (use-cases/getProperties.ts) -/

/-- The query string parameters of `GET /get-properties` as express
hands them to the use case: `none` is an absent parameter, `some ""` a
present but empty one. -/
structure QueryParams where
  searchText : Option String := none
  city : Option String := none
  state : Option String := none
  tempMin : Option String := none
  tempMax : Option String := none
  humidityMin : Option String := none
  humidityMax : Option String := none
  weatherCondition : Option String := none
  limit : Option String := none
  offset : Option String := none
deriving DecidableEq

/-- `req.query.x ? parseFloat(req.query.x) : undefined`: an absent or
empty parameter yields `undefined`, otherwise the `parseFloat` value
(possibly `NaN`). -/
def parseNumParam (p : Option String) : Option JsNum :=
  match p with
  | none => none
  | some s => if s = "" then none else some (jsParseFloat s)

/-- `req.query.x ? parseInt(req.query.x) : d` for `limit`/`offset`. -/
def parseIntParam (p : Option String) (d : ℚ) : JsNum :=
  match p with
  | none => .num d
  | some s => if s = "" then .num d else jsParseInt s

/-- The `filters` object built at the top of `getProperties`. -/
def buildFilters (q : QueryParams) : EnhancedSearchFilters :=
  { searchText := q.searchText
    city := q.city
    state := q.state
    tempMin := parseNumParam q.tempMin
    tempMax := parseNumParam q.tempMax
    humidityMin := parseNumParam q.humidityMin
    humidityMax := parseNumParam q.humidityMax
    weatherCondition := q.weatherCondition
    limit := some (parseIntParam q.limit 20)
    offset := some (parseIntParam q.offset 0) }

/-- One range validation of `getProperties`:
`filters.x !== undefined && (filters.x < lo || filters.x > hi)`
(false for `NaN`, whose comparisons are all false). -/
def rangeViolation (field : Option JsNum) (lo hi : ℚ) : Bool :=
  match field with
  | none => false
  | some v => v.ltc lo || v.gtc hi

/-- The closed set of valid weather conditions. -/
def validWeatherConditions : List String :=
  ["Clear", "Cloudy", "Drizzle", "Rainy", "Snow"]

/-- `filters.weatherCondition && !validWeatherConditions.includes(...)`. -/
def conditionViolation (field : Option String) : Bool :=
  match field with
  | none => false
  | some s => s != "" && !validWeatherConditions.contains s

/-- The `pagination` object of a successful response (the derived
presentation fields `currentPage`/`totalPages` are omitted). -/
structure PaginationInfo where
  total : ℕ
  limit : ℚ
  offset : ℚ
  hasMore : Bool
deriving DecidableEq

/-- Successful response body of `GET /get-properties` (the echoed
filters, performance and metadata blocks are presentation only and
omitted). -/
structure OkBody where
  data : List PropertyWithWeather
  pagination : PaginationInfo
deriving DecidableEq

/-- Response of `GET /get-properties`: HTTP 400 with an error message
(and, for the enum check, the list of valid conditions), or HTTP 200
with the search result. -/
inductive GetPropsResponse where
  | badRequest (error : String) (validConditions : Option (List String)) : GetPropsResponse
  | ok (body : OkBody) : GetPropsResponse
deriving DecidableEq

/-- Is the response the 400 branch? -/
def GetPropsResponse.isBad : GetPropsResponse → Bool
  | .badRequest _ _ => true
  | .ok _ => false

/-- The `getProperties` use case: build the filters, run the five
validations in source order (each returning 400 immediately), then and
only then run the Redis-backed search and wrap it as a 200 body. -/
def getProperties (q : QueryParams) (properties : List CachedProperty)
    (wcache : ℚ × ℚ → Option WeatherInfo) (pv : ℚ × ℚ → ApiResult) :
    GetPropsResponse :=
  let filters := buildFilters q
  if rangeViolation filters.tempMin (-20) 50 then
    .badRequest "Temperature min must be between -20°C and 50°C" none
  else if rangeViolation filters.tempMax (-20) 50 then
    .badRequest "Temperature max must be between -20°C and 50°C" none
  else if rangeViolation filters.humidityMin 0 100 then
    .badRequest "Humidity min must be between 0% and 100%" none
  else if rangeViolation filters.humidityMax 0 100 then
    .badRequest "Humidity max must be between 0% and 100%" none
  else if conditionViolation filters.weatherCondition then
    .badRequest "Invalid weather condition" (some validWeatherConditions)
  else
    let result := searchProperties filters properties wcache pv
    .ok { data := result.properties
          pagination := { total := result.total
                          limit := jsOrD filters.limit 20
                          offset := jsOrD filters.offset 0
                          hasMore := result.hasMore } }

/-! ## The cold cache reload path (claim C9)

`searchProperties` begins with `redis.get` of the snapshot key and, when
that returns null, awaits its own `syncPropertiesToRedis()` (which
queries the database and fills the cache).  There is no shared in-flight
promise or lock: whether concurrent requests collapse into one reload is
a pure interleaving question, modelled here as a small transition
system.  Each request is a two step program:

* step `0` (`redis.get`): observe the cache; a hit finishes the
  request, a miss moves it to step 1;
* step `1` (`syncPropertiesToRedis`): query the store (incrementing the
  reload counter) and write the snapshot into the cache, finishing.

A schedule is the list of request indices in the order in which their
next pending step runs. -/

/-- Shared state plus per request program counters for `k` concurrent
cold start searches. -/
structure SyncSim where
  cache : Option (List CachedProperty)
  reloadCount : ℕ
  pcs : List ℕ
deriving DecidableEq

/-- Initial state: cold cache, no reloads yet, `k` requests at step 0. -/
def syncInit (k : ℕ) : SyncSim :=
  { cache := none, reloadCount := 0, pcs := List.replicate k 0 }

/-- Run the next pending step of request `i` (see the section header). -/
def syncStep (db : List CachedProperty) : SyncSim → ℕ → SyncSim
  | { cache := cache, reloadCount := count, pcs := pcs }, i =>
    match pcs.get? i with
    | some 0 =>
      match cache with
      | some _ => { cache := cache, reloadCount := count, pcs := pcs.set i 2 }
      | none => { cache := cache, reloadCount := count, pcs := pcs.set i 1 }
    | some 1 => { cache := some db, reloadCount := count + 1, pcs := pcs.set i 2 }
    | _ => { cache := cache, reloadCount := count, pcs := pcs }

/-- Execute a schedule from the cold start state. -/
def syncRun (db : List CachedProperty) (k : ℕ) (sched : List ℕ) : SyncSim :=
  sched.foldl (syncStep db) (syncInit k)

/-! ## Specification-side definitions

The following definitions follow the WORDING of the specification (not
the code) and exist only to be compared with the code level definitions
above, for the refinement style claims about `total` and the weather
predicates. -/

/-- Modelled from the spec wording of the weather predicate set:
`temperature >= tempMin` when `tempMin` is set, `temperature <= tempMax`
when `tempMax` is set, the same inclusively for humidity, and exact
equality on the condition when one is set (a `NaN` bound, when set, is
satisfied by nothing since every comparison with `NaN` is false). -/
def specWeatherOk (filters : EnhancedSearchFilters) (w : WeatherInfo) : Bool :=
  (match filters.tempMin with
   | none => true
   | some .nan => false
   | some (.num v) => v ≤ w.temperature) &&
    (match filters.tempMax with
     | none => true
     | some .nan => false
     | some (.num v) => w.temperature ≤ v) &&
    (match filters.humidityMin with
     | none => true
     | some .nan => false
     | some (.num v) => v ≤ w.humidity) &&
    (match filters.humidityMax with
     | none => true
     | some .nan => false
     | some (.num v) => w.humidity ≤ v) &&
    (match filters.weatherCondition with
     | none => true
     | some s => w.condition = s)

/-- The spec predicate lifted to an enriched record (a record that
never received a weather object satisfies no weather predicate). -/
def pwSpecOk (filters : EnhancedSearchFilters) (pw : PropertyWithWeather) : Bool :=
  match pw.weather with
  | none => false
  | some w => specWeatherOk filters w

/-- Modelled from the spec wording of claim C1: the number of cached
records satisfying every active filter - with a weather filter present,
the count after enriching the ENTIRE structurally filtered set and
applying the weather predicate set; otherwise the size of the
structurally filtered set. -/
def specTotal (filters : EnhancedSearchFilters) (properties : List CachedProperty)
    (wcache : ℚ × ℚ → Option WeatherInfo) (pv : ℚ × ℚ → ApiResult) : ℕ :=
  if hasWeatherFilters filters then
    ((attachWeatherData wcache pv ((structuralFiltered filters properties).map toPW)).filter
        (pwSpecOk filters)).length
  else
    (structuralFiltered filters properties).length

/-- Hypothesis bundle under which the falsy guard of
`applyWeatherFilters` agrees with presence: every weather filter field
that is present is also truthy (a nonzero non-`NaN` number, a nonempty
condition string). -/
def presentTruthyB (filters : EnhancedSearchFilters) : Bool :=
  (match filters.tempMin with
   | none => true
   | some x => x.truthy) &&
    (match filters.tempMax with
     | none => true
     | some x => x.truthy) &&
    (match filters.humidityMin with
     | none => true
     | some x => x.truthy) &&
    (match filters.humidityMax with
     | none => true
     | some x => x.truthy) &&
    (match filters.weatherCondition with
     | none => true
     | some s => s != "")

/-! ## Concrete fixtures used by counterexamples and witnesses -/

/-- A snapshot record with usable coordinates. -/
def propA : CachedProperty :=
  { id := 1, name := "Alpha Resort", city := "Pune", state := "MH",
    country := "India", lat := 10, lng := 20, isActive := true, tags := [] }

/-- A second snapshot record with usable coordinates. -/
def propB : CachedProperty :=
  { id := 2, name := "Beta Lodge", city := "Goa", state := "GA",
    country := "India", lat := 11, lng := 21, isActive := true, tags := [] }

/-- A third snapshot record with usable coordinates. -/
def propC : CachedProperty :=
  { id := 3, name := "Gamma Inn", city := "Agra", state := "UP",
    country := "India", lat := 12, lng := 22, isActive := true, tags := [] }

/-- A snapshot record without coordinates (`lat` 0, as
`syncPropertiesToRedis` stores a null column). -/
def propNC : CachedProperty :=
  { id := 4, name := "Delta Haven", city := "Pune", state := "MH",
    country := "India", lat := 0, lng := 0, isActive := true, tags := [] }

/-- A weather cache answering every key with temperature -5. -/
def wcCold : ℚ × ℚ → Option WeatherInfo :=
  fun _ => some { temperature := -5, humidity := 50, condition := "Clear" }

/-- An empty weather cache. -/
def wcNone : ℚ × ℚ → Option WeatherInfo :=
  fun _ => none

/-- A provider for which every outbound call fails. -/
def pvFail : ℚ × ℚ → ApiResult :=
  fun _ => ApiResult.netFail

/-! ## Helper lemmas -/

/-- Awaiting the prepared promises in groups of 10 reassembles exactly
the original sequence. -/
theorem batchJoin_eq (batchSize : ℕ) (hpos : 0 < batchSize) :
    ∀ l : List α, batchJoin batchSize hpos l = l
  | [] => by simp [batchJoin]
  | x :: xs => by
    rw [batchJoin, batchJoin_eq batchSize hpos ((x :: xs).drop batchSize),
      List.take_append_drop]
termination_by l => l.length
decreasing_by
  simp only [List.length_drop, List.length_cons]
  omega

/-- `attachWeatherData` is the per-record enrichment mapped over the
input. -/
theorem attachWeatherData_eq_map (wcache : ℚ × ℚ → Option WeatherInfo)
    (pv : ℚ × ℚ → ApiResult) (properties : List PropertyWithWeather) :
    attachWeatherData wcache pv properties = properties.map (attachOne wcache pv) := by
  rw [attachWeatherData, batchJoin_eq]

/-- Enrichment preserves the number of records. -/
theorem attachWeatherData_length (wcache : ℚ × ℚ → Option WeatherInfo)
    (pv : ℚ × ℚ → ApiResult) (properties : List PropertyWithWeather) :
    (attachWeatherData wcache pv properties).length = properties.length := by
  rw [attachWeatherData_eq_map, List.length_map]

/-- Enrichment always attaches a weather object. -/
theorem attachOne_weather_isSome (wcache : ℚ × ℚ → Option WeatherInfo)
    (pv : ℚ × ℚ → ApiResult) (pw : PropertyWithWeather) :
    (attachOne wcache pv pw).weather.isSome = true := by
  unfold attachOne
  simp only []
  split
  · rfl
  · split
    · rfl
    · split <;> rfl

/-! ## Claim C6 - the weather code table -/

/-- C6: for every integer weather code the code-to-condition mapping
returns Clear for 0, Cloudy for 1-3, Drizzle for 51-57, Rainy for 61-67
and 80-82, Snow for 71-77 and 85-86, and Clear for every code outside
those ranges. -/
theorem c6_mapWeatherCode_table (c : ℤ) :
    (c = 0 → mapWeatherCode (c : ℚ) = "Clear") ∧
    (1 ≤ c ∧ c ≤ 3 → mapWeatherCode (c : ℚ) = "Cloudy") ∧
    (51 ≤ c ∧ c ≤ 57 → mapWeatherCode (c : ℚ) = "Drizzle") ∧
    ((61 ≤ c ∧ c ≤ 67) ∨ (80 ≤ c ∧ c ≤ 82) → mapWeatherCode (c : ℚ) = "Rainy") ∧
    ((71 ≤ c ∧ c ≤ 77) ∨ (85 ≤ c ∧ c ≤ 86) → mapWeatherCode (c : ℚ) = "Snow") ∧
    (¬(c = 0 ∨ (1 ≤ c ∧ c ≤ 3) ∨ (51 ≤ c ∧ c ≤ 57) ∨
        (61 ≤ c ∧ c ≤ 67) ∨ (80 ≤ c ∧ c ≤ 82) ∨
        (71 ≤ c ∧ c ≤ 77) ∨ (85 ≤ c ∧ c ≤ 86)) →
      mapWeatherCode (c : ℚ) = "Clear") := by
  have cast0 : ((c : ℚ) = 0) ↔ (c = 0) := by exact_mod_cast Iff.rfl
  have castR : ∀ a b : ℤ, ((a : ℚ) ≤ (c : ℚ) ∧ (c : ℚ) ≤ (b : ℚ)) ↔ (a ≤ c ∧ c ≤ b) := by
    intro a b
    exact_mod_cast Iff.rfl
  have e1 := castR 1 3
  have e2 := castR 51 57
  have e3 := castR 61 67
  have e4 := castR 80 82
  have e5 := castR 71 77
  have e6 := castR 85 86
  have norm1 : ((1 : ℚ) ≤ (c : ℚ) ∧ (c : ℚ) ≤ 3) ↔ (1 ≤ c ∧ c ≤ 3) := by
    exact_mod_cast e1
  have norm2 : ((51 : ℚ) ≤ (c : ℚ) ∧ (c : ℚ) ≤ 57) ↔ (51 ≤ c ∧ c ≤ 57) := by
    exact_mod_cast e2
  have norm3 : ((61 : ℚ) ≤ (c : ℚ) ∧ (c : ℚ) ≤ 67) ↔ (61 ≤ c ∧ c ≤ 67) := by
    exact_mod_cast e3
  have norm4 : ((80 : ℚ) ≤ (c : ℚ) ∧ (c : ℚ) ≤ 82) ↔ (80 ≤ c ∧ c ≤ 82) := by
    exact_mod_cast e4
  have norm5 : ((71 : ℚ) ≤ (c : ℚ) ∧ (c : ℚ) ≤ 77) ↔ (71 ≤ c ∧ c ≤ 77) := by
    exact_mod_cast e5
  have norm6 : ((85 : ℚ) ≤ (c : ℚ) ∧ (c : ℚ) ≤ 86) ↔ (85 ≤ c ∧ c ≤ 86) := by
    exact_mod_cast e6
  unfold mapWeatherCode
  simp only [cast0, norm1, norm2, norm3, norm4, norm5, norm6]
  refine ⟨?_, ?_, ?_, ?_, ?_, ?_⟩ <;> intro h <;> split_ifs <;> first | rfl | omega

/-- C6 witness: the undocumented code 199 maps to Clear. -/
theorem c6_mapWeatherCode_table_witness : mapWeatherCode ((199 : ℤ) : ℚ) = "Clear" :=
  (c6_mapWeatherCode_table 199).2.2.2.2.2 (by decide)

/-! ## Claim C7 - positional correspondence of the weather batch -/

/-- C7: the batch weather operation returns exactly one record per
input coordinate, in input order: the output has the length of the
input, the i-th output is the fetch (or default) for the i-th input
coordinate alone, and the group-of-10 awaiting loop of
`attachWeatherData` reassembles the per-record enrichment in input
order for every input size. -/
theorem c7_batch_positional (pv : ℚ × ℚ → ApiResult) (coordinates : List Coord) :
    (getWeatherBatch pv coordinates).length = coordinates.length ∧
    (∀ i : ℕ, (getWeatherBatch pv coordinates).get? i =
      (coordinates.get? i).map (fun coord =>
        match fetchFreshWeather pv coord.lat coord.lng with
        | .ok weather => weather
        | .error _ => createDefaultWeather coord.lat coord.lng)) ∧
    (∀ (wcache : ℚ × ℚ → Option WeatherInfo) (properties : List PropertyWithWeather),
      attachWeatherData wcache pv properties = properties.map (attachOne wcache pv)) := by
  refine ⟨by simp [getWeatherBatch], ?_, ?_⟩
  · intro i
    simp [getWeatherBatch, List.getElem?_map]
  · intro wcache properties
    exact attachWeatherData_eq_map wcache pv properties

/-! ## Claim C5 - provider failures degrade to the default record -/

/-- C5: a failed weather fetch (timeout, non-2xx or a malformed body)
contributes the default record (temperature 25, humidity 60, condition
Clear) for exactly that coordinate; the rest of the batch is unaffected
(the output always has one entry per input), and a provider that fails
on every call leaves the enclosing search with exactly the result it
has when every call succeeds with the default values. -/
theorem c5_weather_failure_defaults (pv : ℚ × ℚ → ApiResult) (coordinates : List Coord) :
    (getWeatherBatch pv coordinates).length = coordinates.length ∧
    (∀ (i : ℕ) (coord : Coord), coordinates.get? i = some coord →
      fetchFreshWeather pv coord.lat coord.lng = .error () →
      (getWeatherBatch pv coordinates).get? i =
        some (createDefaultWeather coord.lat coord.lng)) ∧
    (∀ (filters : EnhancedSearchFilters) (properties : List CachedProperty)
        (wcache : ℚ × ℚ → Option WeatherInfo),
      (∀ x, pv x = ApiResult.netFail) →
      searchProperties filters properties wcache pv =
        searchProperties filters properties wcache
          (fun _ => ApiResult.resp (some { temperature_2m := .num 25,
                                           relative_humidity_2m := .num 60,
                                           weather_code := .num 0 }))) := by
  refine ⟨by simp [getWeatherBatch], ?_, ?_⟩
  · intro i coord hc hf
    rw [List.get?_eq_getElem?] at hc
    simp [getWeatherBatch, List.getElem?_map, hc, hf]
  · intro filters properties wcache hfail
    have hone : ∀ lat lng : ℚ,
        (match fetchFreshWeather pv lat lng with
         | .ok w => w
         | .error _ => createDefaultWeather lat lng) = createDefaultWeather lat lng := by
      intro lat lng
      simp [fetchFreshWeather, hfail]
    have honeOk : ∀ lat lng : ℚ,
        (match fetchFreshWeather
            (fun _ => ApiResult.resp (some { temperature_2m := .num 25,
                                             relative_humidity_2m := .num 60,
                                             weather_code := .num 0 })) lat lng with
         | .ok w => w
         | .error _ => createDefaultWeather lat lng) = createDefaultWeather lat lng := by
      intro lat lng
      simp [fetchFreshWeather, createDefaultWeather, JsNum.orD, jsRound, mapWeatherCode]
      norm_num
    have hA : attachOne wcache pv =
        attachOne wcache (fun _ => ApiResult.resp (some { temperature_2m := .num 25,
                                                          relative_humidity_2m := .num 60,
                                                          weather_code := .num 0 })) := by
      funext pw
      unfold attachOne getWeatherBatch
      simp only [List.map_cons, List.map_nil, hone, honeOk]
    have hB : attachWeatherData wcache pv =
        attachWeatherData wcache (fun _ => ApiResult.resp (some { temperature_2m := .num 25,
                                                                  relative_humidity_2m := .num 60,
                                                                  weather_code := .num 0 })) := by
      funext l
      rw [attachWeatherData_eq_map, attachWeatherData_eq_map, hA]
    unfold searchProperties weatherFilteredList
    rw [hB]

/-- C5 witness: with a provider that always fails, the batch for one
coordinate contains exactly the default record. -/
theorem c5_weather_failure_defaults_witness :
    (getWeatherBatch pvFail [{ id := 1, lat := 10, lng := 20 }]).get? 0 =
      some (createDefaultWeather 10 20) :=
  (c5_weather_failure_defaults pvFail [{ id := 1, lat := 10, lng := 20 }]).2.1 0
    { id := 1, lat := 10, lng := 20 } rfl rfl

/-! ## Claim C9 - the cold cache reload is not single flight -/

/-- C9 counterexample: ten concurrent cold start requests that all
execute their cache read before any reload completes trigger ten store
reloads, not the one reload the claim asserts. -/
theorem c9_counterexample :
    (syncRun [] 10 (List.range 10 ++ List.range 10)).reloadCount = 10 ∧
    (10 : ℕ) ≠ 1 := by
  constructor
  · rfl
  · decide

/-- C9 amended: there is no collapse of concurrent cold start reloads -
every request that performs its cache read while the cache is still
empty triggers its own store reload.  For ten concurrent requests the
all-reads-first interleaving produces ten reloads, while the
interleaving in which one request completes its reload before the
others read produces one. -/
theorem c9_reload_per_miss (db : List CachedProperty) :
    (syncRun db 10 (List.range 10 ++ List.range 10)).reloadCount = 10 ∧
    (syncRun db 10 ([0, 0] ++ [1, 2, 3, 4, 5, 6, 7, 8, 9])).reloadCount = 1 := by
  constructor <;> rfl

/-! ## Pagination helper lemmas -/

/-- A resolved slice index never exceeds the list length. -/
theorem relIdx_le (n : ℕ) (q : ℚ) : relIdx n q ≤ n := by
  unfold relIdx
  simp only []
  split
  · omega
  · exact min_le_right _ _

/-- Length of a JavaScript slice in terms of the resolved indices. -/
theorem jsSlice_length (l : List α) (s e : ℚ) :
    (jsSlice l s e).length = relIdx l.length e - relIdx l.length s := by
  unfold jsSlice
  simp only [List.length_drop, List.length_take]
  rw [Nat.min_eq_left (relIdx_le l.length e)]

/-- Resolving a nonnegative integer slice index. -/
theorem relIdx_intCast (n : ℕ) (k : ℤ) (hk : 0 ≤ k) :
    relIdx n (k : ℚ) = min k.toNat n := by
  unfold relIdx ratTrunc
  have h1 : ((0 : ℚ) ≤ (k : ℚ)) := by exact_mod_cast hk
  rw [if_pos h1, Int.floor_intCast, if_neg (by omega)]

/-- `searchProperties` written without the intermediate let bindings. -/
theorem searchProperties_eq (filters : EnhancedSearchFilters)
    (properties : List CachedProperty)
    (wcache : ℚ × ℚ → Option WeatherInfo) (pv : ℚ × ℚ → ApiResult) :
    searchProperties filters properties wcache pv =
      { properties :=
          if hasWeatherFilters filters then
            jsSlice (weatherFilteredList filters properties wcache pv)
              (jsOrD filters.offset 0) (jsOrD filters.offset 0 + jsOrD filters.limit 20)
          else
            attachWeatherData wcache pv
              (jsSlice (weatherFilteredList filters properties wcache pv)
                (jsOrD filters.offset 0) (jsOrD filters.offset 0 + jsOrD filters.limit 20))
        total := (weatherFilteredList filters properties wcache pv).length
        hasMore := decide (jsOrD filters.offset 0 + jsOrD filters.limit 20 <
          ((weatherFilteredList filters properties wcache pv).length : ℚ)) } := rfl

/-! ## Claim C4 - the hasMore flag -/

/-- C4 counterexample: an unvalidated negative offset reaches the
slice.  With three matching records and `offset = -5` (default limit
20), the returned page holds all three records, so
`offset + page length < total` is `-2 < 3`, true - yet the code
computes `hasMore` as `offset + limit < total`, which is `15 < 3`,
false. -/
theorem c4_counterexample :
    (searchProperties { offset := some (.num (-5)) } [propA, propB, propC]
        wcNone pvFail).hasMore = false ∧
    (searchProperties { offset := some (.num (-5)) } [propA, propB, propC]
        wcNone pvFail).properties.length = 3 ∧
    ((-5 : ℚ) + 3 < ((searchProperties { offset := some (.num (-5)) } [propA, propB, propC]
        wcNone pvFail).total : ℚ)) ∧
    jsOrD (EnhancedSearchFilters.offset { offset := some (.num (-5)) }) 0 = (-5 : ℚ) := by
  refine ⟨?_, ?_, ?_, ?_⟩
  · rw [searchProperties_eq]
    norm_num [jsOrD, JsNum.orD, weatherFilteredList, hasWeatherFilters, structuralFiltered,
      structPass, toPW, propA, propB, propC]
  · rw [searchProperties_eq]
    norm_num [jsOrD, JsNum.orD, weatherFilteredList, hasWeatherFilters, structuralFiltered,
      structPass, toPW, jsSlice, relIdx, ratTrunc, propA, propB, propC,
      attachWeatherData_length, Int.ceil_neg]
    omega
  · rw [searchProperties_eq]
    norm_num [weatherFilteredList, hasWeatherFilters, structuralFiltered, structPass, toPW,
      propA, propB, propC]
  · norm_num [jsOrD, JsNum.orD]

/-- C4 amended: whenever the effective offset and limit are
nonnegative integers - which holds for every request whose `offset` and
`limit` parameters are absent or nonnegative, the only triples the rest
of the specification contemplates - `hasMore` is true exactly when
`offset + (number of records in the returned page) < total`; with a
negative effective offset or limit the code instead reports
`offset + limit < total`, which can disagree. -/
theorem c4_hasMore_iff (filters : EnhancedSearchFilters)
    (properties : List CachedProperty)
    (wcache : ℚ × ℚ → Option WeatherInfo) (pv : ℚ × ℚ → ApiResult)
    (oi li : ℤ)
    (ho : jsOrD filters.offset 0 = (oi : ℚ)) (hl : jsOrD filters.limit 20 = (li : ℚ))
    (hoi : 0 ≤ oi) (hli : 0 ≤ li) :
    ((searchProperties filters properties wcache pv).hasMore = true ↔
      oi + ((searchProperties filters properties wcache pv).properties.length : ℤ) <
        ((searchProperties filters properties wcache pv).total : ℤ)) := by
  rw [searchProperties_eq]
  simp only [ho, hl]
  set n := (weatherFilteredList filters properties wcache pv).length with hn
  have hsum : (oi : ℚ) + (li : ℚ) = ((oi + li : ℤ) : ℚ) := by push_cast; ring
  have hpage :
      (if hasWeatherFilters filters then
          jsSlice (weatherFilteredList filters properties wcache pv) ((oi : ℚ))
            ((oi : ℚ) + (li : ℚ))
        else
          attachWeatherData wcache pv
            (jsSlice (weatherFilteredList filters properties wcache pv) ((oi : ℚ))
              ((oi : ℚ) + (li : ℚ)))).length =
        min (oi + li).toNat n - min oi.toNat n := by
    have hcore :
        (jsSlice (weatherFilteredList filters properties wcache pv) ((oi : ℚ))
            ((oi : ℚ) + (li : ℚ))).length = min (oi + li).toNat n - min oi.toNat n := by
      rw [jsSlice_length, hsum, relIdx_intCast _ _ (by omega), relIdx_intCast _ _ hoi, ← hn]
    split
    · exact hcore
    · rw [attachWeatherData_length]
      exact hcore
  simp only [hpage]
  have hcmp : ((oi : ℚ) + (li : ℚ) < (n : ℚ)) ↔ (oi + li < (n : ℤ)) := by
    rw [hsum]
    exact_mod_cast Iff.rfl
  rw [decide_eq_true_iff, hcmp]
  omega

/-- C4 witness: with default paging (offset 0, limit 20) over three
records the equivalence holds. -/
theorem c4_hasMore_iff_witness :
    ((searchProperties {} [propA, propB, propC] wcNone pvFail).hasMore = true ↔
      (0 : ℤ) + ((searchProperties {} [propA, propB, propC] wcNone pvFail).properties.length : ℤ) <
        ((searchProperties {} [propA, propB, propC] wcNone pvFail).total : ℤ)) :=
  c4_hasMore_iff {} [propA, propB, propC] wcNone pvFail 0 20
    (by norm_num [jsOrD]) (by norm_num [jsOrD]) (by norm_num) (by norm_num)

/-! ## Weather filter guard lemmas -/

/-- A numeric filter field that is truthy-if-present and falsy is
absent. -/
theorem optNum_none_of (o : Option JsNum)
    (h1 : (match o with | none => true | some x => x.truthy) = true)
    (h2 : optNumTruthy o = false) : o = none := by
  cases o <;> simp_all [optNumTruthy]

/-- A string filter field that is nonempty-if-present and falsy is
absent. -/
theorem optStr_none_of (o : Option String)
    (h1 : (match o with | none => true | some s => s != "") = true)
    (h2 : optStrTruthy o = false) : o = none := by
  cases o <;> simp_all [optStrTruthy]

/-- When every present weather filter is truthy and at least one is
present, the falsy guard of `applyWeatherFilters` does not fire. -/
theorem allFalsy_false_of_presentTruthy (filters : EnhancedSearchFilters)
    (ht : presentTruthyB filters = true) (hw : hasWeatherFilters filters = true) :
    weatherFiltersAllFalsy filters = false := by
  by_contra h
  have hall : weatherFiltersAllFalsy filters = true := by
    revert h
    cases weatherFiltersAllFalsy filters <;> simp
  simp only [presentTruthyB, Bool.and_eq_true] at ht
  obtain ⟨⟨⟨⟨t1, t2⟩, t3⟩, t4⟩, t5⟩ := ht
  simp only [weatherFiltersAllFalsy, Bool.and_eq_true, Bool.not_eq_true'] at hall
  obtain ⟨⟨⟨⟨f1, f2⟩, f3⟩, f4⟩, f5⟩ := hall
  have n1 := optNum_none_of _ t1 f1
  have n2 := optNum_none_of _ t2 f2
  have n3 := optNum_none_of _ t3 f3
  have n4 := optNum_none_of _ t4 f4
  have n5 := optStr_none_of _ t5 f5
  simp [hasWeatherFilters, n1, n2, n3, n4, n5] at hw

/-- Under the truthy-if-present hypothesis the per record keep decision
of `applyWeatherFilters` coincides with the weather predicate set as
the specification words it. -/
theorem weatherKeep_eq_pwSpecOk (filters : EnhancedSearchFilters)
    (ht : presentTruthyB filters = true) (pw : PropertyWithWeather) :
    weatherKeep filters pw = pwSpecOk filters pw := by
  simp only [presentTruthyB, Bool.and_eq_true] at ht
  obtain ⟨⟨⟨⟨t1, t2⟩, t3⟩, t4⟩, t5⟩ := ht
  unfold weatherKeep pwSpecOk
  cases pw.weather with
  | none => rfl
  | some w =>
    unfold specWeatherOk numCheckFails
    have e1 : (!match filters.tempMin with
        | none => false
        | some bound => ltNum w.temperature bound) =
        (match filters.tempMin with
         | none => true
         | some .nan => false
         | some (.num v) => decide (v ≤ w.temperature)) := by
      cases hm : filters.tempMin with
      | none => rfl
      | some x =>
        cases x with
        | nan => rw [hm] at t1; simp [JsNum.truthy] at t1
        | num v => simp [ltNum, ← decide_not, not_lt]
    have e2 : (!match filters.tempMax with
        | none => false
        | some bound => gtNum w.temperature bound) =
        (match filters.tempMax with
         | none => true
         | some .nan => false
         | some (.num v) => decide (w.temperature ≤ v)) := by
      cases hm : filters.tempMax with
      | none => rfl
      | some x =>
        cases x with
        | nan => rw [hm] at t2; simp [JsNum.truthy] at t2
        | num v => simp [gtNum, ← decide_not, not_lt]
    have e3 : (!match filters.humidityMin with
        | none => false
        | some bound => ltNum w.humidity bound) =
        (match filters.humidityMin with
         | none => true
         | some .nan => false
         | some (.num v) => decide (v ≤ w.humidity)) := by
      cases hm : filters.humidityMin with
      | none => rfl
      | some x =>
        cases x with
        | nan => rw [hm] at t3; simp [JsNum.truthy] at t3
        | num v => simp [ltNum, ← decide_not, not_lt]
    have e4 : (!match filters.humidityMax with
        | none => false
        | some bound => gtNum w.humidity bound) =
        (match filters.humidityMax with
         | none => true
         | some .nan => false
         | some (.num v) => decide (w.humidity ≤ v)) := by
      cases hm : filters.humidityMax with
      | none => rfl
      | some x =>
        cases x with
        | nan => rw [hm] at t4; simp [JsNum.truthy] at t4
        | num v => simp [gtNum, ← decide_not, not_lt]
    have e5 : (!(optStrTruthy filters.weatherCondition &&
          w.condition != filters.weatherCondition.getD "")) =
        (match filters.weatherCondition with
         | none => true
         | some s => decide (w.condition = s)) := by
      cases hm : filters.weatherCondition with
      | none => simp [optStrTruthy]
      | some s =>
        rw [hm] at t5
        have hs : s ≠ "" := by simpa using t5
        by_cases hcs : w.condition = s <;>
          simp [optStrTruthy, hs, hcs]
    simp only []
    rw [e1, e2, e3, e4, e5]

/-- When the falsy guard does not fire, `applyWeatherFilters` is a
plain filter by the per record keep decision. -/
theorem applyWeatherFilters_eq_filter (filters : EnhancedSearchFilters)
    (properties : List PropertyWithWeather)
    (h : weatherFiltersAllFalsy filters = false) :
    applyWeatherFilters properties filters = properties.filter (weatherKeep filters) := by
  simp [applyWeatherFilters, h]

/-! ## Claim C1 - the reported total -/

/-- C1 counterexample: with the single weather filter `tempMin = 0`
(present but falsy) over one record whose cached weather has
temperature -5, the code reports `total = 1` although no record
satisfies the active predicate `temperature >= 0`, whose count is 0:
`hasWeatherFilters` tests presence with `!== undefined` while the guard
of `applyWeatherFilters` tests truthiness, so the predicates are
silently skipped. -/
theorem c1_counterexample :
    (searchProperties { tempMin := some (.num 0) } [propA] wcCold pvFail).total = 1 ∧
    specTotal { tempMin := some (.num 0) } [propA] wcCold pvFail = 0 := by
  have hw : hasWeatherFilters { tempMin := some (.num 0) } = true := by decide
  have hg : weatherFiltersAllFalsy { tempMin := some (.num 0) } = true := by decide
  constructor
  · rw [searchProperties_eq]
    show (weatherFilteredList _ _ _ _).length = 1
    rw [weatherFilteredList, if_pos hw, applyWeatherFilters, if_pos hg,
      attachWeatherData_length]
    norm_num [structuralFiltered, structPass, toPW]
  · rw [specTotal, if_pos hw, attachWeatherData_eq_map]
    have hlat : ¬(propA.lat = 0 ∨ propA.lng = 0) := by
      norm_num [propA]
    norm_num [structuralFiltered, structPass, toPW, attachOne, hlat, wcCold,
      pwSpecOk, specWeatherOk, List.filter]

/-- C1 amended: whenever every present weather filter value is truthy
(a nonzero non-NaN numeric bound, a nonempty condition string), `total`
equals the number of cached records satisfying every active filter -
the count over the fully enriched structurally filtered set when a
weather filter is present, the structural count otherwise.  A present
but falsy weather filter value (numeric 0, NaN, or an empty condition)
makes the code skip the weather predicates, so the equation can fail
there. -/
theorem c1_total_eq_specTotal (filters : EnhancedSearchFilters)
    (properties : List CachedProperty)
    (wcache : ℚ × ℚ → Option WeatherInfo) (pv : ℚ × ℚ → ApiResult)
    (ht : presentTruthyB filters = true) :
    (searchProperties filters properties wcache pv).total =
      specTotal filters properties wcache pv := by
  rw [searchProperties_eq]
  show (weatherFilteredList filters properties wcache pv).length = _
  rw [weatherFilteredList, specTotal]
  by_cases hw : hasWeatherFilters filters = true
  · rw [if_pos hw, if_pos hw,
      applyWeatherFilters_eq_filter filters _ (allFalsy_false_of_presentTruthy filters ht hw)]
    congr 1
    exact List.filter_congr fun x _ => weatherKeep_eq_pwSpecOk filters ht x
  · rw [if_neg hw, if_neg hw, List.length_map]

/-- C1 witness: a truthy filter set (`tempMin = 20`) over one record
with cached temperature -5 gives matching totals. -/
theorem c1_total_eq_specTotal_witness :
    (searchProperties { tempMin := some (.num 20) } [propA] wcCold pvFail).total =
      specTotal { tempMin := some (.num 20) } [propA] wcCold pvFail :=
  c1_total_eq_specTotal { tempMin := some (.num 20) } [propA] wcCold pvFail (by decide)

/-! ## Claim C3 - the weather predicate set -/

/-- C3 counterexample: with the present weather filter `tempMin = 0`,
the enriched record with cached temperature -5 stays in the weather
filtered set although it fails the active inclusive predicate
`temperature >= 0`: the falsy guard of `applyWeatherFilters` skips all
predicates when every present filter value is falsy. -/
theorem c3_counterexample :
    attachOne wcCold pvFail (toPW propA) ∈
      weatherFilteredList { tempMin := some (.num 0) } [propA] wcCold pvFail ∧
    pwSpecOk { tempMin := some (.num 0) } (attachOne wcCold pvFail (toPW propA)) = false ∧
    hasWeatherFilters { tempMin := some (.num 0) } = true := by
  have hw : hasWeatherFilters { tempMin := some (.num 0) } = true := by decide
  have hg : weatherFiltersAllFalsy { tempMin := some (.num 0) } = true := by decide
  refine ⟨?_, ?_, ?_⟩
  · rw [weatherFilteredList, if_pos hw, applyWeatherFilters, if_pos hg,
      attachWeatherData_eq_map]
    simp [structuralFiltered, structPass, List.filter]
  · have hlat : ¬(propA.lat = 0 ∨ propA.lng = 0) := by norm_num [propA]
    norm_num [attachOne, hlat, toPW, wcCold, pwSpecOk, specWeatherOk]
  · exact hw

/-- C3 amended: whenever at least one weather filter is present and
every present weather filter value is truthy (nonzero non-NaN numeric
bounds, nonempty condition), the weather filtered set is exactly the
fully enriched structurally filtered set restricted to the records
passing every active inclusive predicate, and pagination happens after
that filtering (`total` is the size of the filtered set and the page is
its slice); a present but falsy filter value disables all weather
predicates instead. -/
theorem c3_weatherFilter_characterization (filters : EnhancedSearchFilters)
    (properties : List CachedProperty)
    (wcache : ℚ × ℚ → Option WeatherInfo) (pv : ℚ × ℚ → ApiResult)
    (hw : hasWeatherFilters filters = true) (ht : presentTruthyB filters = true) :
    weatherFilteredList filters properties wcache pv =
      ((structuralFiltered filters properties).map
          (fun p => attachOne wcache pv (toPW p))).filter (pwSpecOk filters) ∧
    (∀ x, x ∈ weatherFilteredList filters properties wcache pv ↔
      (x ∈ (structuralFiltered filters properties).map
          (fun p => attachOne wcache pv (toPW p)) ∧
        pwSpecOk filters x = true)) ∧
    (searchProperties filters properties wcache pv).total =
      (weatherFilteredList filters properties wcache pv).length ∧
    (searchProperties filters properties wcache pv).properties =
      jsSlice (weatherFilteredList filters properties wcache pv)
        (jsOrD filters.offset 0) (jsOrD filters.offset 0 + jsOrD filters.limit 20) := by
  have hmain : weatherFilteredList filters properties wcache pv =
      ((structuralFiltered filters properties).map
          (fun p => attachOne wcache pv (toPW p))).filter (pwSpecOk filters) := by
    rw [weatherFilteredList, if_pos hw,
      applyWeatherFilters_eq_filter filters _ (allFalsy_false_of_presentTruthy filters ht hw),
      attachWeatherData_eq_map, List.map_map]
    exact List.filter_congr fun x _ => weatherKeep_eq_pwSpecOk filters ht x
  refine ⟨hmain, ?_, ?_, ?_⟩
  · intro x
    rw [hmain, List.mem_filter]
  · rw [searchProperties_eq]
  · rw [searchProperties_eq]
    show (if hasWeatherFilters filters then _ else _) = _
    rw [if_pos hw]

/-- C3 witness: with the truthy filter `tempMin = 20` the record with
cached temperature -5 is filtered out and the characterization holds. -/
theorem c3_weatherFilter_characterization_witness :
    weatherFilteredList { tempMin := some (.num 20) } [propA] wcCold pvFail =
      ((structuralFiltered { tempMin := some (.num 20) } [propA]).map
          (fun p => attachOne wcCold pvFail (toPW p))).filter
        (pwSpecOk { tempMin := some (.num 20) }) :=
  (c3_weatherFilter_characterization { tempMin := some (.num 20) } [propA] wcCold pvFail
    (by decide) (by decide)).1

/-! ## Claim C2 - records without coordinates -/

/-- C2 counterexample: under the active weather filter `tempMin = 20`
the record without coordinates is NOT excluded - it receives the
default weather (25, 60, Clear), which passes the predicate, so it
appears in both the page and the total. -/
theorem c2_counterexample :
    (searchProperties { tempMin := some (.num 20) } [propNC] wcNone pvFail).total = 1 ∧
    (searchProperties { tempMin := some (.num 20) } [propNC] wcNone pvFail).properties =
      [{ base := propNC, weather := some defaultWeatherInfo }] := by
  have hw : hasWeatherFilters { tempMin := some (.num 20) } = true := by decide
  have hg : weatherFiltersAllFalsy { tempMin := some (.num 20) } = false := by decide
  have hnc : propNC.lat = 0 ∨ propNC.lng = 0 := by norm_num [propNC]
  have hlist : weatherFilteredList { tempMin := some (.num 20) } [propNC] wcNone pvFail =
      [{ base := propNC, weather := some defaultWeatherInfo }] := by
    rw [weatherFilteredList, if_pos hw, applyWeatherFilters_eq_filter _ _ hg,
      attachWeatherData_eq_map]
    norm_num [structuralFiltered, structPass, toPW, attachOne, hnc, weatherKeep,
      numCheckFails, ltNum, gtNum, optStrTruthy, defaultWeatherInfo, List.filter]
  constructor
  · rw [searchProperties_eq]
    show (weatherFilteredList _ _ _ _).length = 1
    rw [hlist]
    rfl
  · rw [searchProperties_eq]
    dsimp only
    rw [if_pos hw, hlist]
    norm_num [jsSlice, relIdx, ratTrunc, jsOrD, JsNum.orD]

/-- C2 amended: a record without coordinates is never really excluded
up front - enrichment attaches the default weather (temperature 25,
humidity 60, condition Clear) to it; when a weather filter is present
the record is in the weather filtered set (and hence counted in the
total) exactly when the applied weather checks keep the default weather
(always, when every present filter value is falsy); when no weather
filter is present it is included subject to structural filters and
pagination. -/
theorem c2_noCoords_default (filters : EnhancedSearchFilters)
    (properties : List CachedProperty)
    (wcache : ℚ × ℚ → Option WeatherInfo) (pv : ℚ × ℚ → ApiResult)
    (p : CachedProperty)
    (hp : p ∈ properties) (hc : p.lat = 0 ∨ p.lng = 0)
    (hs : structPass filters p = true) :
    attachOne wcache pv (toPW p) = { base := p, weather := some defaultWeatherInfo } ∧
    (hasWeatherFilters filters = true →
      (({ base := p, weather := some defaultWeatherInfo } : PropertyWithWeather) ∈
          weatherFilteredList filters properties wcache pv ↔
        (weatherFiltersAllFalsy filters = true ∨
          weatherKeep filters { base := p, weather := some defaultWeatherInfo } = true))) ∧
    (hasWeatherFilters filters = false →
      toPW p ∈ weatherFilteredList filters properties wcache pv) := by
  have hd : attachOne wcache pv (toPW p) =
      { base := p, weather := some defaultWeatherInfo } := by
    unfold attachOne toPW
    simp only []
    rw [if_pos hc]
  have hmem : ({ base := p, weather := some defaultWeatherInfo } : PropertyWithWeather) ∈
      attachWeatherData wcache pv ((structuralFiltered filters properties).map toPW) := by
    rw [attachWeatherData_eq_map]
    exact List.mem_map.mpr ⟨toPW p,
      List.mem_map.mpr ⟨p, List.mem_filter.mpr ⟨hp, hs⟩, rfl⟩, hd⟩
  refine ⟨hd, ?_, ?_⟩
  · intro hw
    rw [weatherFilteredList, if_pos hw]
    by_cases hg : weatherFiltersAllFalsy filters = true
    · rw [applyWeatherFilters, if_pos hg]
      exact Iff.intro (fun _ => Or.inl hg) (fun _ => hmem)
    · have hg' : weatherFiltersAllFalsy filters = false := by
        revert hg
        cases weatherFiltersAllFalsy filters <;> simp
      rw [applyWeatherFilters_eq_filter _ _ hg', List.mem_filter]
      constructor
      · rintro ⟨-, hk⟩
        exact Or.inr hk
      · rintro (hfalsy | hk)
        · exact absurd hfalsy hg
        · exact ⟨hmem, hk⟩
  · intro hw
    rw [weatherFilteredList, if_neg (by simp [hw])]
    exact List.mem_map.mpr ⟨p, List.mem_filter.mpr ⟨hp, hs⟩, rfl⟩

/-- C2 witness: the coordinate-free record receives the default
weather object. -/
theorem c2_noCoords_default_witness :
    attachOne wcNone pvFail (toPW propNC) =
      { base := propNC, weather := some defaultWeatherInfo } :=
  (c2_noCoords_default { tempMin := some (.num 20) } [propNC] wcNone pvFail propNC
    (by norm_num) (by norm_num [propNC]) (by decide)).1

/-! ## Claim C8 - request validation -/

/-- C8: a request whose parsed `tempMin`/`tempMax` is a number outside
[-20, 50], or whose parsed `humidityMin`/`humidityMax` is a number
outside [0, 100], or whose `weatherCondition` is a nonempty string
outside the closed condition set, is answered with HTTP 400 carrying an
error message - with the five valid conditions listed when the numeric
checks pass and the enum check fails - and the response is computed
without consulting the property snapshot, the weather cache or the
provider. -/
theorem c8_validation_rejects (q : QueryParams)
    (properties : List CachedProperty)
    (wcache : ℚ × ℚ → Option WeatherInfo) (pv : ℚ × ℚ → ApiResult)
    (hv : (∃ v : ℚ, (buildFilters q).tempMin = some (.num v) ∧ (v < -20 ∨ 50 < v)) ∨
          (∃ v : ℚ, (buildFilters q).tempMax = some (.num v) ∧ (v < -20 ∨ 50 < v)) ∨
          (∃ v : ℚ, (buildFilters q).humidityMin = some (.num v) ∧ (v < 0 ∨ 100 < v)) ∨
          (∃ v : ℚ, (buildFilters q).humidityMax = some (.num v) ∧ (v < 0 ∨ 100 < v)) ∨
          (∃ s : String, (buildFilters q).weatherCondition = some s ∧ s ≠ "" ∧
            s ∉ validWeatherConditions)) :
    (getProperties q properties wcache pv).isBad = true ∧
    (∀ (properties2 : List CachedProperty) (wcache2 : ℚ × ℚ → Option WeatherInfo)
        (pv2 : ℚ × ℚ → ApiResult),
      getProperties q properties2 wcache2 pv2 = getProperties q properties wcache pv) ∧
    (rangeViolation (buildFilters q).tempMin (-20) 50 = false →
      rangeViolation (buildFilters q).tempMax (-20) 50 = false →
      rangeViolation (buildFilters q).humidityMin 0 100 = false →
      rangeViolation (buildFilters q).humidityMax 0 100 = false →
      getProperties q properties wcache pv =
        .badRequest "Invalid weather condition" (some validWeatherConditions)) := by
  have hb : rangeViolation (buildFilters q).tempMin (-20) 50 = true ∨
      rangeViolation (buildFilters q).tempMax (-20) 50 = true ∨
      rangeViolation (buildFilters q).humidityMin 0 100 = true ∨
      rangeViolation (buildFilters q).humidityMax 0 100 = true ∨
      conditionViolation (buildFilters q).weatherCondition = true := by
    rcases hv with ⟨v, he, hr⟩ | ⟨v, he, hr⟩ | ⟨v, he, hr⟩ | ⟨v, he, hr⟩ | ⟨s, he, hs1, hs2⟩
    · refine Or.inl ?_
      rcases hr with h | h <;> simp [rangeViolation, he, JsNum.ltc, JsNum.gtc, h]
    · refine Or.inr (Or.inl ?_)
      rcases hr with h | h <;> simp [rangeViolation, he, JsNum.ltc, JsNum.gtc, h]
    · refine Or.inr (Or.inr (Or.inl ?_))
      rcases hr with h | h <;> simp [rangeViolation, he, JsNum.ltc, JsNum.gtc, h]
    · refine Or.inr (Or.inr (Or.inr (Or.inl ?_)))
      rcases hr with h | h <;> simp [rangeViolation, he, JsNum.ltc, JsNum.gtc, h]
    · refine Or.inr (Or.inr (Or.inr (Or.inr ?_)))
      simp [conditionViolation, he, hs1, hs2]
  refine ⟨?_, ?_, ?_⟩
  · rcases hb with h | h | h | h | h <;>
      simp only [getProperties, h] <;>
      split_ifs <;> rfl
  · intro properties2 wcache2 pv2
    rcases hb with h | h | h | h | h <;>
      simp only [getProperties, h] <;>
      split_ifs <;> rfl
  · intro f1 f2 f3 f4
    have h5 : conditionViolation (buildFilters q).weatherCondition = true := by
      rcases hb with h | h | h | h | h
      · rw [h] at f1; cases f1
      · rw [h] at f2; cases f2
      · rw [h] at f3; cases f3
      · rw [h] at f4; cases f4
      · exact h
    simp only [getProperties, f1, f2, f3, f4, h5]
    rfl

/-- C8 witness: `tempMin = -25` is rejected with a 400 response. -/
theorem c8_validation_rejects_witness :
    (getProperties { tempMin := some "-25" } [] wcNone pvFail).isBad = true := by
  have hp : parseFloatParts "-25" = some (true, 25, 0, 0) := by decide
  have hA : (buildFilters { tempMin := some "-25" }).tempMin = some (.num (-25)) := by
    show parseNumParam (some "-25") = some (.num (-25))
    simp only [parseNumParam]
    rw [if_neg (by decide)]
    simp [jsParseFloat, hp]
  exact (c8_validation_rejects { tempMin := some "-25" } [] wcNone pvFail
    (Or.inl ⟨-25, hA, Or.inl (by norm_num)⟩)).1

/-- A JavaScript slice commutes with mapping. -/
theorem jsSlice_map (g : α → β) (l : List α) (s e : ℚ) :
    jsSlice (l.map g) s e = (jsSlice l s e).map g := by
  unfold jsSlice
  rw [List.length_map, ← List.map_take, ← List.map_drop]

/-! ## Claim C10 - NaN weather filter values -/

/-- C10: a request whose numeric weather filter parameters are all
absent or non-numeric (parsing to `NaN`), with at least one present,
is not rejected: `NaN` passes the range validation, counts as a weather
filter being present (so the full enrichment branch runs), and excludes
nothing - the response carries the structural count as `total` and the
enriched structural page as `data`. -/
theorem c10_nan_filters_excludeNothing (q : QueryParams)
    (properties : List CachedProperty)
    (wcache : ℚ × ℚ → Option WeatherInfo) (pv : ℚ × ℚ → ApiResult)
    (h1 : parseNumParam q.tempMin = none ∨ parseNumParam q.tempMin = some .nan)
    (h2 : parseNumParam q.tempMax = none ∨ parseNumParam q.tempMax = some .nan)
    (h3 : parseNumParam q.humidityMin = none ∨ parseNumParam q.humidityMin = some .nan)
    (h4 : parseNumParam q.humidityMax = none ∨ parseNumParam q.humidityMax = some .nan)
    (h5 : q.weatherCondition = none ∨ q.weatherCondition = some "")
    (hsome : parseNumParam q.tempMin = some .nan ∨ parseNumParam q.tempMax = some .nan ∨
      parseNumParam q.humidityMin = some .nan ∨ parseNumParam q.humidityMax = some .nan) :
    hasWeatherFilters (buildFilters q) = true ∧
    getProperties q properties wcache pv =
      .ok { data := attachWeatherData wcache pv
              (jsSlice ((structuralFiltered (buildFilters q) properties).map toPW)
                (jsOrD (buildFilters q).offset 0)
                (jsOrD (buildFilters q).offset 0 + jsOrD (buildFilters q).limit 20))
            pagination :=
              { total := (structuralFiltered (buildFilters q) properties).length
                limit := jsOrD (buildFilters q).limit 20
                offset := jsOrD (buildFilters q).offset 0
                hasMore := decide (jsOrD (buildFilters q).offset 0 +
                    jsOrD (buildFilters q).limit 20 <
                  ((structuralFiltered (buildFilters q) properties).length : ℚ)) } } := by
  have hw : hasWeatherFilters (buildFilters q) = true := by
    rcases hsome with h | h | h | h <;> simp [hasWeatherFilters, buildFilters, h]
  have hg : weatherFiltersAllFalsy (buildFilters q) = true := by
    rcases h1 with h1 | h1 <;> rcases h2 with h2 | h2 <;> rcases h3 with h3 | h3 <;>
      rcases h4 with h4 | h4 <;> rcases h5 with h5 | h5 <;>
      simp [weatherFiltersAllFalsy, buildFilters, optNumTruthy, optStrTruthy,
        JsNum.truthy, h1, h2, h3, h4, h5]
  have hv1 : rangeViolation (buildFilters q).tempMin (-20) 50 = false := by
    rcases h1 with h | h <;> simp [rangeViolation, buildFilters, h, JsNum.ltc, JsNum.gtc]
  have hv2 : rangeViolation (buildFilters q).tempMax (-20) 50 = false := by
    rcases h2 with h | h <;> simp [rangeViolation, buildFilters, h, JsNum.ltc, JsNum.gtc]
  have hv3 : rangeViolation (buildFilters q).humidityMin 0 100 = false := by
    rcases h3 with h | h <;> simp [rangeViolation, buildFilters, h, JsNum.ltc, JsNum.gtc]
  have hv4 : rangeViolation (buildFilters q).humidityMax 0 100 = false := by
    rcases h4 with h | h <;> simp [rangeViolation, buildFilters, h, JsNum.ltc, JsNum.gtc]
  have hv5 : conditionViolation (buildFilters q).weatherCondition = false := by
    rcases h5 with h | h <;> simp [conditionViolation, buildFilters, h]
  refine ⟨hw, ?_⟩
  simp only [getProperties, hv1, hv2, hv3, hv4, hv5]
  norm_num
  rw [searchProperties_eq]
  have hWFL : weatherFilteredList (buildFilters q) properties wcache pv =
      ((structuralFiltered (buildFilters q) properties).map toPW).map
        (attachOne wcache pv) := by
    rw [weatherFilteredList, if_pos hw, applyWeatherFilters, if_pos hg,
      attachWeatherData_eq_map]
  have htotal : (weatherFilteredList (buildFilters q) properties wcache pv).length =
      (structuralFiltered (buildFilters q) properties).length := by
    rw [hWFL, List.length_map, List.length_map]
  refine ⟨?_, ?_, ?_⟩
  · dsimp only
    rw [if_pos hw, hWFL, jsSlice_map, attachWeatherData_eq_map]
  · dsimp only
    exact htotal
  · dsimp only
    rw [htotal]

/-- C10 witness: `tempMin=abc` parses to `NaN` and is counted as a
present weather filter. -/
theorem c10_nan_filters_excludeNothing_witness :
    hasWeatherFilters (buildFilters { tempMin := some "abc" }) = true :=
  (c10_nan_filters_excludeNothing { tempMin := some "abc" } [] wcNone pvFail
    (Or.inr (by decide)) (Or.inl rfl) (Or.inl rfl) (Or.inl rfl) (Or.inl rfl)
    (Or.inl (by decide))).1
